import Mathlib

/-
Verification of the flutter_surf_mcp command surface (src/flutter_surf_mcp.py).

The embedding models Python values, truthiness, str()/repr(), int() parsing,
dict lookup, and each MCP tool command as a pure Lean function.  The remote
automation client (the external app_use App object) is modelled as a record of
behaviours (each remote method either returns a value or raises, i.e. yields
an Except), and every command returns, besides its string result, the list of
remote calls it performed, so that "no remote call is made" is a provable
statement about the trace.
-/

namespace FlutterSurf

/-- Model of a Python value as delivered by to_json serialisation:
strings, ints, bools, None, lists and string-keyed dicts. -/
inductive PyVal where
  | pstr (s : String)
  | pint (n : Int)
  | pbool (b : Bool)
  | pnone
  | plist (xs : List PyVal)
  | pdict (kvs : List (String × PyVal))

/-- Python truthiness for the modelled values: empty string, 0, False, None,
empty list and empty dict are falsy, everything else is truthy. -/
def pyTruthy : PyVal → Bool
  | PyVal.pstr s => !s.isEmpty
  | PyVal.pint n => n != 0
  | PyVal.pbool b => b
  | PyVal.pnone => false
  | PyVal.plist xs => !xs.isEmpty
  | PyVal.pdict kvs => !kvs.isEmpty

/-- Lookup of a string key in a modelled Python dict (first binding wins,
matching dict semantics under unique keys). -/
def dictFind : List (String × PyVal) → String → Option PyVal
  | [], _ => none
  | (k, v) :: rest, key => if k == key then some v else dictFind rest key

theorem dictFind_sizeOf : ∀ (kvs : List (String × PyVal)) (key : String) (v : PyVal),
    dictFind kvs key = some v → sizeOf v < sizeOf kvs
  | [], _, _, h => by simp [dictFind] at h
  | (k, w) :: rest, key, v, h => by
    simp only [dictFind] at h
    split at h
    · cases h
      simp only [List.cons.sizeOf_spec, Prod.mk.sizeOf_spec]
      omega
    · have ih := dictFind_sizeOf rest key v h
      simp only [List.cons.sizeOf_spec, Prod.mk.sizeOf_spec]
      omega

mutual
/-- Model of Python repr() on the modelled values (string escaping inside
repr of a str is not modelled: keys and scalar strings are rendered between
plain quote characters). -/
def pyRepr : PyVal → String
  | PyVal.pstr s => "\x27" ++ s ++ "\x27"
  | PyVal.pint n => toString n
  | PyVal.pbool b => if b then "True" else "False"
  | PyVal.pnone => "None"
  | PyVal.plist xs => "[" ++ pyReprList xs ++ "]"
  | PyVal.pdict kvs => "\x7b" ++ pyReprDict kvs ++ "\x7d"

/-- Comma-separated reprs of the elements of a Python list. -/
def pyReprList : List PyVal → String
  | [] => ""
  | [x] => pyRepr x
  | x :: y :: rest => pyRepr x ++ ", " ++ pyReprList (y :: rest)

/-- Comma-separated key: value reprs of the entries of a Python dict. -/
def pyReprDict : List (String × PyVal) → String
  | [] => ""
  | [(k, v)] => "\x27" ++ k ++ "\x27: " ++ pyRepr v
  | (k, v) :: e :: rest => "\x27" ++ k ++ "\x27: " ++ pyRepr v ++ ", " ++ pyReprDict (e :: rest)
end

/-- Model of Python str() on the modelled values: a str is rendered as
itself, every other value falls back to its repr. -/
def pyStr : PyVal → String
  | PyVal.pstr s => s
  | v => pyRepr v

/-- String repetition, modelling the Python expression s * n. -/
def strRepeat (s : String) : Nat → String
  | 0 => ""
  | n + 1 => s ++ strRepeat s n

mutual
/-- Embedding of format_json_node (src/flutter_surf_mcp.py lines 418-445):
recursively renders one node of the to_json tree with indentation.  Subscript
and membership operations on non-dict values raise in Python; the embedding
returns Except.error carrying the str() of the corresponding exception
(KeyError messages are exact; TypeError texts are approximations). -/
def format_json_node (node_json : PyVal) (depth : Nat) : Except String String :=
  match node_json with
  | PyVal.pdict kvs =>
    match dictFind kvs "id" with
    | none => Except.error "\x27id\x27"
    | some idv =>
      match dictFind kvs "widget_type" with
      | none => Except.error "\x27widget_type\x27"
      | some wtv =>
        let indent := strRepeat "  " depth
        let head := indent ++ "ID: " ++ pyStr idv ++ " - Type: " ++ pyStr wtv ++ "\n"
        let textPart :=
          match dictFind kvs "text" with
          | some tv => if pyTruthy tv then indent ++ "  Text: " ++ pyStr tv ++ "\n" else ""
          | none => ""
        let keyPart :=
          match dictFind kvs "key" with
          | some kv => if pyTruthy kv then indent ++ "  Key: " ++ pyStr kv ++ "\n" else ""
          | none => ""
        let interactivePart :=
          match dictFind kvs "interactive" with
          | some iv => indent ++ "  Interactive: " ++ (if pyTruthy iv then "Yes" else "No") ++ "\n"
          | none => ""
        let propsPart :=
          match dictFind kvs "properties" with
          | some pv => if pyTruthy pv then indent ++ "  Properties: " ++ pyStr pv ++ "\n" else ""
          | none => ""
        let pre := head ++ textPart ++ keyPart ++ interactivePart ++ propsPart
        match hc : dictFind kvs "children" with
        | some cv =>
          if pyTruthy cv then
            match hcv : cv with
            | PyVal.plist cs =>
              match format_json_node_children cs (depth + 1) with
              | Except.error e => Except.error e
              | Except.ok sub =>
                Except.ok (pre ++ indent ++ "  Children: " ++ toString cs.length ++ "\n" ++ sub)
            | _ => Except.error "object of that type has no len()"
          else Except.ok pre
        | none => Except.ok pre
  | PyVal.pstr _ => Except.error "string indices must be integers"
  | PyVal.plist _ => Except.error "list indices must be integers or slices, not str"
  | PyVal.pint _ => Except.error "\x27int\x27 object is not subscriptable"
  | PyVal.pbool _ => Except.error "\x27bool\x27 object is not subscriptable"
  | PyVal.pnone => Except.error "\x27NoneType\x27 object is not subscriptable"
termination_by sizeOf node_json
decreasing_by
  have h1 := dictFind_sizeOf kvs "children" _ hc
  simp only [PyVal.plist.sizeOf_spec, PyVal.pdict.sizeOf_spec] at h1 ⊢
  omega

/-- The loop over the children of a node in format_json_node: concatenates
the recursive renderings, propagating the first raised error. -/
def format_json_node_children (cs : List PyVal) (depth : Nat) : Except String String :=
  match cs with
  | [] => Except.ok ""
  | c :: rest =>
    match format_json_node c depth with
    | Except.error e => Except.error e
    | Except.ok s =>
      match format_json_node_children rest depth with
      | Except.error e => Except.error e
      | Except.ok r => Except.ok (s ++ r)
termination_by sizeOf cs
decreasing_by
  · simp only [List.cons.sizeOf_spec]
    omega
  · simp only [List.cons.sizeOf_spec]
    omega
end

/-- One UI element of a snapshot, as used by the command surface
(src/flutter_surf_mcp.py): only the fields the commands read are modelled.
text and key are None-able in Python; a missing text attribute behaves like
None under every hasattr-guarded access, so both are one Option.  parent is
modelled by the parent unique_id (only parent.unique_id is ever read) and
child_nodes by the child unique_ids (only child.unique_id is ever read).
properties models the optional properties entry of node.to_json(). -/
structure Node where
  unique_id : Int
  widget_type : String
  text : Option String
  key : Option String
  properties : Option (List (String × String))
  is_interactive : Bool
  parent : Option Int
  child_nodes : List Int
deriving DecidableEq

/-- One fetched snapshot: the selector map (in dict iteration order), plus
what format_widget_tree observes: whether to_json exists, its value, and the
str() rendering of the object used by the fallback messages. -/
structure NodeState where
  selector_map : List (Int × Node)
  hasToJson : Bool
  jsonData : PyVal
  raw : String

/-- The module-global connection state: the app handle (None when never
connected) and the is_connected flag. -/
structure ConnState where
  app : Option Nat
  is_connected : Bool
deriving DecidableEq

/-- The guard shared by every command: not is_connected or app is None. -/
def connGuard (st : ConnState) : Bool :=
  !st.is_connected || st.app.isNone

/-- Behaviour of the remote automation client (the app_use App object):
each method either returns a value or raises with a message. -/
structure Remote where
  fetchState : Except String NodeState
  clickResult : Int → Except String Bool
  enterTextResult : Int → String → Except String Bool
  scrollIntoViewResult : Int → Except String Bool
  scrollResult : Int → String → Except String Bool
  scrollExtResult : Int → String → Int → Int → Int → Int → Except String Bool

/-- A remote call performed by a command, recorded in order. -/
inductive RemoteCall where
  | fetchState
  | clickDispatch (id : Int)
  | enterTextDispatch (id : Int) (t : String)
  | scrollIntoViewDispatch (id : Int)
  | scrollDispatch (id : Int) (direction : String)
  | scrollExtDispatch (id : Int) (direction : String) (dx dy durationMicro freq : Int)
deriving DecidableEq

/-- Python str.lower(), character by character. -/
def strLower (s : String) : String :=
  String.mk (s.data.map Char.toLower)

/-- Executable contiguous-infix test on lists (the Mathlib decidability
instance for the infix order does not reduce in the kernel). -/
def listInfixCheck (a : List Char) : List Char → Bool
  | [] => a.isPrefixOf []
  | b :: bs => a.isPrefixOf (b :: bs) || listInfixCheck a bs

theorem listInfixCheck_iff (a : List Char) : ∀ (l : List Char),
    listInfixCheck a l = true ↔ a <:+: l
  | [] => by
    simp only [listInfixCheck, List.isPrefixOf_iff_prefix, List.prefix_nil, List.infix_nil]
  | b :: bs => by
    simp only [listInfixCheck, Bool.or_eq_true, List.isPrefixOf_iff_prefix,
      listInfixCheck_iff a bs, List.infix_cons_iff]

/-- The Python expression a in b on strings: contiguous substring
containment. -/
def pyIn (a b : String) : Bool :=
  listInfixCheck a.data b.data

theorem pyIn_iff (a b : String) : pyIn a b = true ↔ a.data <:+: b.data :=
  listInfixCheck_iff a.data b.data

/-- Model of Python int(s) on a string: optional surrounding whitespace, an
optional sign, then a nonempty digit run in which single underscores may
separate digits.  (Unicode digits and exotic whitespace are not modelled.)
Returns none where Python raises ValueError. -/
def pyDigitsAux : Nat → List Char → Option Nat
  | acc, [] => some acc
  | acc, '_' :: c :: rest =>
    if c.isDigit then pyDigitsAux (acc * 10 + (c.toNat - 48)) rest else none
  | _, ['_'] => none
  | acc, c :: rest =>
    if c.isDigit then pyDigitsAux (acc * 10 + (c.toNat - 48)) rest else none

/-- The digit run of pyParseInt must start with a digit. -/
def pyDigitsStart : List Char → Option Nat
  | [] => none
  | c :: rest => if c.isDigit then pyDigitsAux (c.toNat - 48) rest else none

/-- See pyDigitsAux: the full int(s) model. -/
def pyParseInt (s : String) : Option Int :=
  let cs := ((s.data.dropWhile Char.isWhitespace).reverse.dropWhile Char.isWhitespace).reverse
  match cs with
  | '+' :: rest => (pyDigitsStart rest).map (fun n => (Int.ofNat n))
  | '-' :: rest => (pyDigitsStart rest).map (fun n => -(Int.ofNat n))
  | rest => (pyDigitsStart rest).map (fun n => (Int.ofNat n))

/-- Python dict.get on the selector map. -/
def selectorGet : List (Int × Node) → Int → Option Node
  | [], _ => none
  | (k, v) :: rest, key => if k == key then some v else selectorGet rest key

/-- The Python slice s[:n] on a string (character count, as len does). -/
def pyStrTake (s : String) (n : Nat) : String :=
  String.mk (s.data.take n)

/-- Embedding of format_widget_tree (src/flutter_surf_mcp.py lines 392-416):
renders header, element tree and summary when to_json is available, the
serialisation fallback when it is not, and the catch-all error notice when
anything inside the try block raises. -/
def formatBody (ns : NodeState) : Except String String :=
  match ns.jsonData with
  | PyVal.pdict kvs =>
    match dictFind kvs "element_tree" with
    | none => Except.error "\x27element_tree\x27"
    | some tree =>
      match format_json_node tree 0 with
      | Except.error e => Except.error e
      | Except.ok treeStr =>
        let total := ns.selector_map.length
        let interactive := (ns.selector_map.filter (fun p => p.2.is_interactive)).length
        Except.ok ("Flutter App UI Structure:\n\n" ++ "Element Tree:\n" ++ treeStr ++
          "\nUI Summary:\n" ++ "- Total nodes: " ++ toString total ++ "\n" ++
          "- Interactive nodes: " ++ toString interactive ++ "\n")
  | PyVal.pstr _ => Except.error "string indices must be integers"
  | PyVal.plist _ => Except.error "list indices must be integers or slices, not str"
  | PyVal.pint _ => Except.error "\x27int\x27 object is not subscriptable"
  | PyVal.pbool _ => Except.error "\x27bool\x27 object is not subscriptable"
  | PyVal.pnone => Except.error "\x27NoneType\x27 object is not subscriptable"

/-- format_widget_tree itself: never raises, every failure inside the try is
converted to the error notice carrying str(node_state). -/
def format_widget_tree (node_state : NodeState) : String :=
  if node_state.hasToJson then
    match formatBody node_state with
    | Except.ok r => r
    | Except.error e => "Error formatting widget tree: " ++ e ++ "\nRaw data: " ++ node_state.raw
  else
    "Node state doesn\x27t support to_json serialization. Raw data: " ++ node_state.raw

/-- f-string rendering of a Python value that is either a string or None. -/
def pyOptDisplay : Option String → String
  | some s => s
  | none => "None"

/-- widget_text as each action command captures it: target_node.text when the
attribute exists and is truthy, else None. -/
def widgetTextOf (n : Node) : Option String :=
  match n.text with
  | some t => if t.isEmpty then none else some t
  | none => none

/-- widget_key as each action command captures it: target_node.key when
truthy, else None. -/
def widgetKeyOf (n : Node) : Option String :=
  match n.key with
  | some k => if k.isEmpty then none else some k
  | none => none

/-- The shared descriptive phrase of the action outcome messages, built from
the fields captured from the resolved node before the action is dispatched. -/
def describeWidget (n : Node) : String :=
  n.widget_type ++ " widget with text \x27" ++ pyOptDisplay (widgetTextOf n) ++
    "\x27 and key \x27" ++ pyOptDisplay (widgetKeyOf n) ++ "\x27"

/-- The NotConnected message of every command. -/
def notConnectedMsg : String :=
  "Not connected to a Flutter app. Please connect first using connect_to_flutter_app."

/-- The InvalidIdentifierFormat message. -/
def invalidIdMsg (widget_id : String) : String :=
  "Invalid widget ID format: \x27" ++ widget_id ++ "\x27. ID should be an integer."

/-- The WidgetNotFound message. -/
def widgetNotFoundMsg (widget_id : String) : String :=
  "Widget with ID \x27" ++ widget_id ++ "\x27 not found. Use get_app_state to see available widgets."

/-- The InvalidParameter message of the two scroll commands. -/
def invalidDirectionMsg : String :=
  "Invalid direction. Use \x27up\x27 or \x27down\x27."

/-- Embedding of click_widget (src/flutter_surf_mcp.py lines 63-105). -/
def click_widget (st : ConnState) (remote : Remote) (widget_id : String) :
    String × List RemoteCall :=
  if connGuard st then (notConnectedMsg, [])
  else
    match pyParseInt widget_id with
    | none => (invalidIdMsg widget_id, [])
    | some target =>
      match remote.fetchState with
      | Except.error e => ("Error clicking widget: " ++ e, [RemoteCall.fetchState])
      | Except.ok ns =>
        match selectorGet ns.selector_map target with
        | none => (widgetNotFoundMsg widget_id, [RemoteCall.fetchState])
        | some node =>
          let wt := node.widget_type
          let wtext := pyOptDisplay (widgetTextOf node)
          let wkey := pyOptDisplay (widgetKeyOf node)
          match remote.clickResult target with
          | Except.error e =>
            ("Error clicking widget: " ++ e,
             [RemoteCall.fetchState, RemoteCall.clickDispatch target])
          | Except.ok success =>
            ((if success then
                "Successfully clicked on " ++ wt ++ " widget with text \x27" ++ wtext ++
                  "\x27 and key \x27" ++ wkey ++ "\x27."
              else
                "Failed to click on " ++ wt ++ " widget with text \x27" ++ wtext ++
                  "\x27 and key \x27" ++ wkey ++ "\x27. The widget might not be interactive."),
             [RemoteCall.fetchState, RemoteCall.clickDispatch target])

/-- Embedding of enter_text (src/flutter_surf_mcp.py lines 107-150). -/
def enter_text (st : ConnState) (remote : Remote) (widget_id : String) (text : String) :
    String × List RemoteCall :=
  if connGuard st then (notConnectedMsg, [])
  else
    match pyParseInt widget_id with
    | none => (invalidIdMsg widget_id, [])
    | some target =>
      match remote.fetchState with
      | Except.error e => ("Error entering text into widget: " ++ e, [RemoteCall.fetchState])
      | Except.ok ns =>
        match selectorGet ns.selector_map target with
        | none => (widgetNotFoundMsg widget_id, [RemoteCall.fetchState])
        | some node =>
          let wt := node.widget_type
          let wtext := pyOptDisplay (widgetTextOf node)
          let wkey := pyOptDisplay (widgetKeyOf node)
          match remote.enterTextResult target text with
          | Except.error e =>
            ("Error entering text into widget: " ++ e,
             [RemoteCall.fetchState, RemoteCall.enterTextDispatch target text])
          | Except.ok success =>
            ((if success then
                "Successfully entered text \x27" ++ text ++ "\x27 into " ++ wt ++
                  " widget with previous text \x27" ++ wtext ++ "\x27 and key \x27" ++ wkey ++ "\x27."
              else
                "Failed to enter text into " ++ wt ++ " widget with text \x27" ++ wtext ++
                  "\x27 and key \x27" ++ wkey ++ "\x27. The widget might not support text input."),
             [RemoteCall.fetchState, RemoteCall.enterTextDispatch target text])

/-- Embedding of scroll_widget_into_view (src/flutter_surf_mcp.py lines 217-259). -/
def scroll_widget_into_view (st : ConnState) (remote : Remote) (widget_id : String) :
    String × List RemoteCall :=
  if connGuard st then (notConnectedMsg, [])
  else
    match pyParseInt widget_id with
    | none => (invalidIdMsg widget_id, [])
    | some target =>
      match remote.fetchState with
      | Except.error e => ("Error scrolling widget into view: " ++ e, [RemoteCall.fetchState])
      | Except.ok ns =>
        match selectorGet ns.selector_map target with
        | none => (widgetNotFoundMsg widget_id, [RemoteCall.fetchState])
        | some node =>
          let wt := node.widget_type
          let wtext := pyOptDisplay (widgetTextOf node)
          let wkey := pyOptDisplay (widgetKeyOf node)
          match remote.scrollIntoViewResult target with
          | Except.error e =>
            ("Error scrolling widget into view: " ++ e,
             [RemoteCall.fetchState, RemoteCall.scrollIntoViewDispatch target])
          | Except.ok success =>
            ((if success then
                "Successfully scrolled " ++ wt ++ " widget into view with text \x27" ++ wtext ++
                  "\x27 and key \x27" ++ wkey ++ "\x27."
              else
                "Failed to scroll " ++ wt ++ " widget into view with text \x27" ++ wtext ++
                  "\x27 and key \x27" ++ wkey ++ "\x27. The widget might not be scrollable."),
             [RemoteCall.fetchState, RemoteCall.scrollIntoViewDispatch target])

/-- Embedding of scroll_widget_normal (src/flutter_surf_mcp.py lines 261-308):
the direction is validated before the try block, hence before identifier
parsing and before any remote call. -/
def scroll_widget_normal (st : ConnState) (remote : Remote) (widget_id : String)
    (direction : String) : String × List RemoteCall :=
  if connGuard st then (notConnectedMsg, [])
  else if !(direction == "up" || direction == "down") then (invalidDirectionMsg, [])
  else
    match pyParseInt widget_id with
    | none => (invalidIdMsg widget_id, [])
    | some target =>
      match remote.fetchState with
      | Except.error e => ("Error scrolling widget: " ++ e, [RemoteCall.fetchState])
      | Except.ok ns =>
        match selectorGet ns.selector_map target with
        | none => (widgetNotFoundMsg widget_id, [RemoteCall.fetchState])
        | some node =>
          let wt := node.widget_type
          let wtext := pyOptDisplay (widgetTextOf node)
          let wkey := pyOptDisplay (widgetKeyOf node)
          match remote.scrollResult target direction with
          | Except.error e =>
            ("Error scrolling widget: " ++ e,
             [RemoteCall.fetchState, RemoteCall.scrollDispatch target direction])
          | Except.ok success =>
            ((if success then
                "Successfully scrolled " ++ direction ++ " " ++ wt ++ " widget with text \x27" ++
                  wtext ++ "\x27 and key \x27" ++ wkey ++ "\x27."
              else
                "Failed to scroll " ++ direction ++ " " ++ wt ++ " widget with text \x27" ++
                  wtext ++ "\x27 and key \x27" ++ wkey ++ "\x27. The widget might not be scrollable."),
             [RemoteCall.fetchState, RemoteCall.scrollDispatch target direction])

/-- Embedding of scroll_widget (src/flutter_surf_mcp.py lines 310-368): the
extended scroll; duration_ms is converted to microseconds and a fixed
frequency of 60 is always supplied to the remote client. -/
def scroll_widget (st : ConnState) (remote : Remote) (widget_id : String)
    (direction : String) (dx dy duration_ms : Int) : String × List RemoteCall :=
  if connGuard st then (notConnectedMsg, [])
  else if !(direction == "up" || direction == "down") then (invalidDirectionMsg, [])
  else
    match pyParseInt widget_id with
    | none => (invalidIdMsg widget_id, [])
    | some target =>
      match remote.fetchState with
      | Except.error e =>
        ("Error scrolling widget with extended parameters: " ++ e, [RemoteCall.fetchState])
      | Except.ok ns =>
        match selectorGet ns.selector_map target with
        | none => (widgetNotFoundMsg widget_id, [RemoteCall.fetchState])
        | some node =>
          let wt := node.widget_type
          let wtext := pyOptDisplay (widgetTextOf node)
          let wkey := pyOptDisplay (widgetKeyOf node)
          match remote.scrollExtResult target direction dx dy (duration_ms * 1000) 60 with
          | Except.error e =>
            ("Error scrolling widget with extended parameters: " ++ e,
             [RemoteCall.fetchState,
              RemoteCall.scrollExtDispatch target direction dx dy (duration_ms * 1000) 60])
          | Except.ok success =>
            ((if success then
                "Successfully performed extended scroll " ++ direction ++ " on " ++ wt ++
                  " widget with text \x27" ++ wtext ++ "\x27 and key \x27" ++ wkey ++ "\x27."
              else
                "Failed to perform extended scroll " ++ direction ++ " on " ++ wt ++
                  " widget with text \x27" ++ wtext ++ "\x27 and key \x27" ++ wkey ++
                  "\x27. The widget might not be scrollable."),
             [RemoteCall.fetchState,
              RemoteCall.scrollExtDispatch target direction dx dy (duration_ms * 1000) 60])

/-- Embedding of get_app_state (src/flutter_surf_mcp.py lines 37-61): format
the fetched snapshot and trim the result to 1000000 characters when it is
longer. -/
def get_app_state (st : ConnState) (remote : Remote) : String × List RemoteCall :=
  if connGuard st then (notConnectedMsg, [])
  else
    match remote.fetchState with
    | Except.error e => ("Error getting app state: " ++ e, [RemoteCall.fetchState])
    | Except.ok ns =>
      let formatted := format_widget_tree ns
      let out := if formatted.length > 1000000 then pyStrTake formatted 1000000 else formatted
      (out, [RemoteCall.fetchState])

/-- The key clause of the search loop (line 174): node.key must be truthy
and the lowered search value a substring of the lowered key. -/
def keyClause (sv : String) (n : Node) : Bool :=
  match n.key with
  | some k => (!k.isEmpty) && pyIn sv (strLower k)
  | none => false

/-- The text clause of the search loop (line 176): the text attribute must
exist and be truthy, and the lowered search value a substring of the lowered
text. -/
def textClause (sv : String) (n : Node) : Bool :=
  match n.text with
  | some t => (!t.isEmpty) && pyIn sv (strLower t)
  | none => false

/-- The type clause of the search loop (line 178): substring test against the
lowered widget_type, with no truthiness guard on the field. -/
def typeClause (sv : String) (n : Node) : Bool :=
  pyIn sv (strLower n.widget_type)

/-- One pass of the search loop body (lines 173-185), as the elif chain; sv
is the already-lowered search value. -/
def nodeMatches (search_by sv : String) (n : Node) : Bool :=
  if search_by == "key" && keyClause sv n then true
  else if search_by == "text" && textClause sv n then true
  else if search_by == "type" && typeClause sv n then true
  else if search_by == "all" && (keyClause sv n || textClause sv n || typeClause sv n) then true
  else false

/-- The matches list accumulated by the loop of find_widgets: the nodes of
the selector map in iteration order that satisfy the search clause. -/
def findMatches (ns : NodeState) (search_by search_value : String) : List Node :=
  (ns.selector_map.map Prod.snd).filter (nodeMatches search_by (strLower search_value))

/-- str() of the properties entry of node.to_json(), a dict of strings. -/
def pyStrProps (props : List (String × String)) : String :=
  "\x7b" ++ String.intercalate ", "
    (props.map (fun kv => "\x27" ++ kv.1 ++ "\x27: \x27" ++ kv.2 ++ "\x27")) ++ "\x7d"

/-- One numbered entry of the find_widgets result listing (lines 193-210). -/
def renderMatch (i : Nat) (n : Node) : String :=
  let parentStr :=
    match n.parent with
    | some p => toString p
    | none => "None"
  let childrenStr :=
    if n.child_nodes.isEmpty then "None"
    else String.intercalate ", " (n.child_nodes.map toString)
  toString i ++ ". Type: " ++ n.widget_type ++ "\n" ++
  "   ID: " ++ toString n.unique_id ++ "\n" ++
  "   Parent ID: " ++ parentStr ++ "\n" ++
  "   Children IDs: " ++ childrenStr ++ "\n" ++
  (match n.properties with
   | some props => "   Properties: " ++ pyStrProps props ++ "\n"
   | none => "") ++
  (match n.key with
   | some k => if k.isEmpty then "" else "   Key: " ++ k ++ "\n"
   | none => "") ++
  (match n.text with
   | some t => if t.isEmpty then "" else "   Text: " ++ t ++ "\n"
   | none => "") ++
  "   Interactive: " ++ (if n.is_interactive then "Yes" else "No") ++ "\n" ++ "\n"

/-- The enumerate(matches, 1) loop of the result listing. -/
def renderMatchList : Nat → List Node → String
  | _, [] => ""
  | i, n :: rest => renderMatch i n ++ renderMatchList (i + 1) rest

/-- Embedding of find_widgets (src/flutter_surf_mcp.py lines 152-215).  Note
the no-match message interpolates search_value after it has been lowered. -/
def find_widgets (st : ConnState) (remote : Remote) (search_by search_value : String) :
    String × List RemoteCall :=
  if connGuard st then (notConnectedMsg, [])
  else
    match remote.fetchState with
    | Except.error e => ("Error finding widgets: " ++ e, [RemoteCall.fetchState])
    | Except.ok ns =>
      let sv := strLower search_value
      let found := (ns.selector_map.map Prod.snd).filter (nodeMatches search_by sv)
      if found.isEmpty then
        ("No widgets found matching \x27" ++ sv ++ "\x27 in " ++ search_by ++ ".",
         [RemoteCall.fetchState])
      else
        ("Found " ++ toString found.length ++ " widgets matching \x27" ++ sv ++ "\x27 in " ++
           search_by ++ ":\n\n" ++ renderMatchList 1 found,
         [RemoteCall.fetchState])

/-- The two lifecycle events of connect_to_flutter_app, in the order the
command performs them. -/
inductive ConnEvent where
  | closeOld
  | createNew
deriving DecidableEq

/-- Behaviour of app.close() on the old connection: returns or raises. -/
inductive CloseBehavior where
  | ok
  | raises (msg : String)
deriving DecidableEq

/-- Embedding of connect_to_flutter_app (src/flutter_surf_mcp.py lines 14-35).
The close of an existing connection happens before the try block: if it
raises, the exception propagates out of the command (Except.error).  Creation
of the new App happens inside the try: on success the state becomes connected
to the new handle; on failure is_connected is cleared, app keeps its previous
value, and the error string is returned.  The event list records which
lifecycle steps were reached, in order. -/
def connect_to_flutter_app (st : ConnState) (close : CloseBehavior)
    (create : Except String Nat) (vm_service_uri : String) :
    Except String (ConnState × String) × List ConnEvent :=
  match st.app with
  | some _ =>
    match close with
    | CloseBehavior.raises m => (Except.error m, [ConnEvent.closeOld])
    | CloseBehavior.ok =>
      match create with
      | Except.ok h =>
        (Except.ok ({ app := some h, is_connected := true },
           "Successfully connected to Flutter app at " ++ vm_service_uri),
         [ConnEvent.closeOld, ConnEvent.createNew])
      | Except.error e =>
        (Except.ok ({ app := st.app, is_connected := false },
           "Error connecting to Flutter app: " ++ e),
         [ConnEvent.closeOld, ConnEvent.createNew])
  | none =>
    match create with
    | Except.ok h =>
      (Except.ok ({ app := some h, is_connected := true },
         "Successfully connected to Flutter app at " ++ vm_service_uri),
       [ConnEvent.createNew])
    | Except.error e =>
      (Except.ok ({ app := st.app, is_connected := false },
         "Error connecting to Flutter app: " ++ e),
       [ConnEvent.createNew])

/-
Concrete fixtures shared by the witnesses and counterexamples below.
-/

/-- A connected-state fixture: one live app handle. -/
def stConnT : ConnState := { app := some 0, is_connected := true }

/-- An interactive Button node with text and key, unique_id 2. -/
def nodeButtonT : Node :=
  { unique_id := 2, widget_type := "Button", text := some "Submit", key := some "submit",
    properties := none, is_interactive := true, parent := some 1, child_nodes := [] }

/-- A snapshot holding only the Button node. -/
def nsT : NodeState :=
  { selector_map := [(2, nodeButtonT)], hasToJson := true,
    jsonData := PyVal.pdict [], raw := "NodeState()" }

/-- A stub remote client: fetch returns nsT, every dispatch returns True. -/
def remoteT : Remote :=
  { fetchState := Except.ok nsT,
    clickResult := fun _ => Except.ok true,
    enterTextResult := fun _ _ => Except.ok true,
    scrollIntoViewResult := fun _ => Except.ok true,
    scrollResult := fun _ _ => Except.ok true,
    scrollExtResult := fun _ _ _ _ _ _ => Except.ok true }

/-- A node whose widget_type is the empty string and whose key and text are
absent. -/
def nodeEmptyTypeT : Node :=
  { unique_id := 1, widget_type := "", text := none, key := none,
    properties := none, is_interactive := false, parent := none, child_nodes := [] }

/-- A snapshot holding only the empty-type node. -/
def nsEmptyTypeT : NodeState :=
  { selector_map := [(1, nodeEmptyTypeT)], hasToJson := true,
    jsonData := PyVal.pdict [], raw := "NodeState()" }

/-- An empty snapshot whose to_json dict has no element_tree entry. -/
def nsEmptyA : NodeState :=
  { selector_map := [], hasToJson := true, jsonData := PyVal.pdict [], raw := "NodeState()" }

/-- An empty snapshot whose to_json dict maps element_tree to None. -/
def nsEmptyB : NodeState :=
  { selector_map := [], hasToJson := true,
    jsonData := PyVal.pdict [("element_tree", PyVal.pnone)], raw := "NodeState()" }

/-- A node_state object without a to_json method. -/
def nsNoJsonT : NodeState :=
  { selector_map := [], hasToJson := false, jsonData := PyVal.pnone, raw := "RAW" }

/-- Claim C1, counterexample: with an active connection whose close raises,
connect_to_flutter_app propagates the exception out of the command instead of
returning a descriptive string — the close on line 25 sits outside the try
block.  This refutes that close errors are ignored and that the command never
raises for every behaviour of the old close. -/
theorem connect_close_error_escapes :
    (connect_to_flutter_app stConnT (CloseBehavior.raises "boom") (Except.ok 1) "ws://x").1 =
      Except.error "boom" := by
  rfl

/-- Claim C1, amended: when the close of the old connection does not raise
(or no connection exists), the old connection is released before the new one
is created, creation errors are caught inside the try block and rendered as a
descriptive string, and the command returns normally; but an error raised by
the close of the old connection itself propagates past the command boundary. -/
theorem connect_to_flutter_app_amended (st : ConnState) (create : Except String Nat)
    (uri : String) :
    ((connect_to_flutter_app st CloseBehavior.ok create uri).2 =
      match st.app with
      | some _ => [ConnEvent.closeOld, ConnEvent.createNew]
      | none => [ConnEvent.createNew]) ∧
    ((∃ h, create = Except.ok h ∧
        (connect_to_flutter_app st CloseBehavior.ok create uri).1 =
          Except.ok ({ app := some h, is_connected := true },
            "Successfully connected to Flutter app at " ++ uri)) ∨
     (∃ e, create = Except.error e ∧
        (connect_to_flutter_app st CloseBehavior.ok create uri).1 =
          Except.ok ({ app := st.app, is_connected := false },
            "Error connecting to Flutter app: " ++ e))) := by
  obtain ⟨app, conn⟩ := st
  cases app <;> cases create <;>
    simp [connect_to_flutter_app]

theorem nodeMatches_key (sv : String) (n : Node) :
    nodeMatches "key" sv n = keyClause sv n := by
  cases h : keyClause sv n <;> simp [nodeMatches, h]

theorem nodeMatches_text (sv : String) (n : Node) :
    nodeMatches "text" sv n = textClause sv n := by
  cases h : textClause sv n <;> simp [nodeMatches, h]

theorem nodeMatches_type (sv : String) (n : Node) :
    nodeMatches "type" sv n = typeClause sv n := by
  cases h : typeClause sv n <;> simp [nodeMatches, h]

theorem nodeMatches_all (sv : String) (n : Node) :
    nodeMatches "all" sv n = (keyClause sv n || textClause sv n || typeClause sv n) := by
  cases h1 : keyClause sv n <;> cases h2 : textClause sv n <;> cases h3 : typeClause sv n <;>
    simp [nodeMatches, h1, h2, h3]

theorem mem_findMatches (ns : NodeState) (sb sv : String) (n : Node) :
    n ∈ findMatches ns sb sv ↔
      n ∈ ns.selector_map.map Prod.snd ∧ nodeMatches sb (strLower sv) n = true := by
  simp [findMatches, List.mem_filter]

theorem keyClause_iff (s : String) (n : Node) :
    keyClause s n = true ↔ ∃ k, n.key = some k ∧ k ≠ "" ∧ s.data <:+: (strLower k).data := by
  cases hk : n.key with
  | none => simp [keyClause, hk]
  | some k =>
    simp [keyClause, hk, pyIn_iff, Bool.eq_false_iff, String.isEmpty_iff]

theorem textClause_iff (s : String) (n : Node) :
    textClause s n = true ↔ ∃ t, n.text = some t ∧ t ≠ "" ∧ s.data <:+: (strLower t).data := by
  cases ht : n.text with
  | none => simp [textClause, ht]
  | some t =>
    simp [textClause, ht, pyIn_iff, Bool.eq_false_iff, String.isEmpty_iff]

theorem typeClause_iff (s : String) (n : Node) :
    typeClause s n = true ↔ s.data <:+: (strLower n.widget_type).data := by
  simp [typeClause, pyIn_iff]

/-- Claim C2, counterexample: a Node whose widget_type is the empty string
matches a type search with the empty search_value — line 178 has no
truthiness guard on widget_type, so the empty relevant field does match. -/
theorem empty_type_field_matches :
    nodeEmptyTypeT.widget_type = "" ∧
    findMatches nsEmptyTypeT "type" "" = [nodeEmptyTypeT] ∧
    findMatches nsEmptyTypeT "all" "" = [nodeEmptyTypeT] := by
  decide

/-- Claim C2, amended: matching is case-insensitive substring containment
against the corresponding field(s), and all matches when any of key, text or
type matches.  A Node whose key or text is absent or empty never matches a
key or text search, even with the empty search_value; the type clause however
has no emptiness guard, so a Node whose widget_type is empty matches a type
search exactly when the lowered search_value is a substring of it (that is,
when the search_value is empty). -/
theorem find_matching_semantics (ns : NodeState) (sv : String) (n : Node) :
    ((n.key = none ∨ n.key = some "") → n ∉ findMatches ns "key" sv) ∧
    ((n.text = none ∨ n.text = some "") → n ∉ findMatches ns "text" sv) ∧
    (n ∈ findMatches ns "key" sv ↔
      n ∈ ns.selector_map.map Prod.snd ∧
        ∃ k, n.key = some k ∧ k ≠ "" ∧ (strLower sv).data <:+: (strLower k).data) ∧
    (n ∈ findMatches ns "text" sv ↔
      n ∈ ns.selector_map.map Prod.snd ∧
        ∃ t, n.text = some t ∧ t ≠ "" ∧ (strLower sv).data <:+: (strLower t).data) ∧
    (n ∈ findMatches ns "type" sv ↔
      n ∈ ns.selector_map.map Prod.snd ∧
        (strLower sv).data <:+: (strLower n.widget_type).data) ∧
    (n ∈ findMatches ns "all" sv ↔
      n ∈ findMatches ns "key" sv ∨ n ∈ findMatches ns "text" sv ∨
        n ∈ findMatches ns "type" sv) := by
  have hkey := mem_findMatches ns "key" sv n
  have htext := mem_findMatches ns "text" sv n
  have htype := mem_findMatches ns "type" sv n
  have hall := mem_findMatches ns "all" sv n
  rw [nodeMatches_key] at hkey
  rw [nodeMatches_text] at htext
  rw [nodeMatches_type] at htype
  rw [nodeMatches_all] at hall
  refine ⟨?_, ?_, ?_, ?_, ?_, ?_⟩
  · intro habs hmem
    rcases (keyClause_iff _ _).mp (hkey.mp hmem).2 with ⟨k, hk, hne, _⟩
    rcases habs with h0 | h0 <;> rw [h0] at hk <;> simp_all
  · intro habs hmem
    rcases (textClause_iff _ _).mp (htext.mp hmem).2 with ⟨t, ht, hne, _⟩
    rcases habs with h0 | h0 <;> rw [h0] at ht <;> simp_all
  · rw [hkey, keyClause_iff]
  · rw [htext, textClause_iff]
  · rw [htype, typeClause_iff]
  · rw [hall, hkey, htext, htype]
    constructor
    · rintro ⟨hmem, hcl⟩
      rcases Bool.or_eq_true _ _ |>.mp hcl with h | h
      · rcases Bool.or_eq_true _ _ |>.mp h with h | h
        · exact Or.inl ⟨hmem, h⟩
        · exact Or.inr (Or.inl ⟨hmem, h⟩)
      · exact Or.inr (Or.inr ⟨hmem, h⟩)
    · rintro (⟨hmem, h⟩ | ⟨hmem, h⟩ | ⟨hmem, h⟩)
      · exact ⟨hmem, by simp [h]⟩
      · exact ⟨hmem, by simp [h]⟩
      · exact ⟨hmem, by simp [h]⟩

/-- Claim C2 amended, witness: the Button fixture matches a text search for
sub case-insensitively and an absent key never matches. -/
theorem find_matching_semantics_witness :
    nodeEmptyTypeT ∉ findMatches nsT "key" "" ∧
    (nodeButtonT ∈ findMatches nsT "text" "SUB" ↔
      nodeButtonT ∈ nsT.selector_map.map Prod.snd ∧
        ∃ t, nodeButtonT.text = some t ∧ t ≠ "" ∧
          (strLower "SUB").data <:+: (strLower t).data) :=
  ⟨(find_matching_semantics nsT "" nodeEmptyTypeT).1 (Or.inl rfl),
   (find_matching_semantics nsT "SUB" nodeButtonT).2.2.2.1⟩

/-- Claim C7: for every snapshot and search_value, the all search contains
every Node found by any of the three single-field searches with the same
search_value. -/
theorem all_search_superset (ns : NodeState) (sv : String) (n : Node)
    (h : n ∈ findMatches ns "key" sv ∨ n ∈ findMatches ns "text" sv ∨
      n ∈ findMatches ns "type" sv) :
    n ∈ findMatches ns "all" sv := by
  rw [mem_findMatches, nodeMatches_all]
  rcases h with h | h | h
  · have h2 := (mem_findMatches ns "key" sv n).mp h
    rw [nodeMatches_key] at h2
    exact ⟨h2.1, by simp [h2.2]⟩
  · have h2 := (mem_findMatches ns "text" sv n).mp h
    rw [nodeMatches_text] at h2
    exact ⟨h2.1, by simp [h2.2]⟩
  · have h2 := (mem_findMatches ns "type" sv n).mp h
    rw [nodeMatches_type] at h2
    exact ⟨h2.1, by simp [h2.2]⟩

/-- Claim C7, witness: the Button fixture reached by the text search is in
the all search for the same value. -/
theorem all_search_superset_witness :
    nodeButtonT ∈ findMatches nsT "text" "sub" ∧
    nodeButtonT ∈ findMatches nsT "all" "sub" :=
  ⟨by decide, all_search_superset nsT "sub" nodeButtonT (Or.inr (Or.inl (by decide)))⟩

theorem nodeMatches_other (sb sv : String) (n : Node)
    (h1 : sb ≠ "key") (h2 : sb ≠ "text") (h3 : sb ≠ "type") (h4 : sb ≠ "all") :
    nodeMatches sb sv n = false := by
  simp [nodeMatches, h1, h2, h3, h4]

/-- Claim C10: with an active connection, a search_by outside key, text,
type, all matches no Node (the elif chain never fires) and find_widgets
returns the no-widgets notice, for every snapshot and search_value. -/
theorem unknown_search_by_empty (st : ConnState) (remote : Remote) (ns : NodeState)
    (sb sv : String)
    (hconn : connGuard st = false) (hfetch : remote.fetchState = Except.ok ns)
    (h1 : sb ≠ "key") (h2 : sb ≠ "text") (h3 : sb ≠ "type") (h4 : sb ≠ "all") :
    findMatches ns sb sv = [] ∧
    find_widgets st remote sb sv =
      ("No widgets found matching \x27" ++ strLower sv ++ "\x27 in " ++ sb ++ ".",
       [RemoteCall.fetchState]) := by
  have hnil : findMatches ns sb sv = [] := by
    apply List.filter_eq_nil_iff.mpr
    intro a _
    simp [nodeMatches_other sb (strLower sv) a h1 h2 h3 h4]
  refine ⟨hnil, ?_⟩
  rw [findMatches] at hnil
  simp [find_widgets, hconn, hfetch, hnil]

/-- Claim C10, witness: the bogus search_by over the Button snapshot. -/
theorem unknown_search_by_empty_witness :
    find_widgets stConnT remoteT "bogus" "X" =
      ("No widgets found matching \x27x\x27 in bogus.", [RemoteCall.fetchState]) :=
  (unknown_search_by_empty stConnT remoteT nsT "bogus" "X" rfl rfl
    (by decide) (by decide) (by decide) (by decide)).2

/-- Claim C5: with an active connection, a direction outside up, down makes
both scroll commands return the InvalidParameter message with no remote call
at all — the check precedes the try block, identifier parsing and any
snapshot fetch — for every widget_id string. -/
theorem invalid_direction_short_circuits (st : ConnState) (remote : Remote)
    (widget_id direction : String) (dx dy duration_ms : Int)
    (hconn : connGuard st = false)
    (h1 : direction ≠ "up") (h2 : direction ≠ "down") :
    scroll_widget_normal st remote widget_id direction = (invalidDirectionMsg, []) ∧
    scroll_widget st remote widget_id direction dx dy duration_ms =
      (invalidDirectionMsg, []) := by
  constructor
  · simp [scroll_widget_normal, hconn, h1, h2]
  · simp [scroll_widget, hconn, h1, h2]

/-- Claim C5, witness: the left direction with the stub remote and an
arbitrary widget_id, including one that does not even parse. -/
theorem invalid_direction_short_circuits_witness :
    scroll_widget_normal stConnT remoteT "2" "left" = (invalidDirectionMsg, []) :=
  (invalid_direction_short_circuits stConnT remoteT "2" "left" 0 100 300 rfl
    (by decide) (by decide)).1

/-- Claim C4, counterexample: for the simple scroll command an invalid
direction takes precedence over the unparseable identifier, so the command
returns the InvalidParameter message, not the InvalidIdentifierFormat
message, although the connection is active and the identifier abc is not
parseable as an integer. -/
theorem invalid_direction_beats_invalid_id :
    scroll_widget_normal stConnT remoteT "abc" "left" = (invalidDirectionMsg, []) ∧
    scroll_widget_normal stConnT remoteT "abc" "left" ≠ (invalidIdMsg "abc", []) := by
  decide

/-- Claim C4, amended: with an active connection and an identifier that does
not parse as an integer, every identifier-taking action command returns the
InvalidIdentifierFormat message and performs no remote call — provided, for
the two scroll commands, the direction is valid, since an invalid direction
is rejected first (still with no remote call). -/
theorem invalid_id_no_remote_call (st : ConnState) (remote : Remote)
    (widget_id text direction : String) (dx dy duration_ms : Int)
    (hconn : connGuard st = false) (hparse : pyParseInt widget_id = none)
    (hdir : direction = "up" ∨ direction = "down") :
    click_widget st remote widget_id = (invalidIdMsg widget_id, []) ∧
    enter_text st remote widget_id text = (invalidIdMsg widget_id, []) ∧
    scroll_widget_into_view st remote widget_id = (invalidIdMsg widget_id, []) ∧
    scroll_widget_normal st remote widget_id direction = (invalidIdMsg widget_id, []) ∧
    scroll_widget st remote widget_id direction dx dy duration_ms =
      (invalidIdMsg widget_id, []) := by
  have hdirb : (direction == "up" || direction == "down") = true := by
    rcases hdir with h | h <;> simp [h]
  refine ⟨?_, ?_, ?_, ?_, ?_⟩
  · simp [click_widget, hconn, hparse]
  · simp [enter_text, hconn, hparse]
  · simp [scroll_widget_into_view, hconn, hparse]
  · simp [scroll_widget_normal, hconn, hparse, hdirb]
  · simp [scroll_widget, hconn, hparse, hdirb]

/-- Claim C4 amended, witness: the identifier abc with the stub remote. -/
theorem invalid_id_no_remote_call_witness :
    click_widget stConnT remoteT "abc" = (invalidIdMsg "abc", []) ∧
    scroll_widget stConnT remoteT "abc" "down" 0 100 300 = (invalidIdMsg "abc", []) :=
  ⟨(invalid_id_no_remote_call stConnT remoteT "abc" "hi" "down" 0 100 300 rfl rfl
      (Or.inr rfl)).1,
   (invalid_id_no_remote_call stConnT remoteT "abc" "hi" "down" 0 100 300 rfl rfl
      (Or.inr rfl)).2.2.2.2⟩

/-- Claim C6: for every action command and every connected snapshot, an
identifier that parses to an integer absent from the selector map yields the
WidgetNotFound message, and the only remote call performed is the snapshot
fetch — no action is dispatched.  (For the two scroll commands resolution is
reached only with a valid direction.) -/
theorem missing_id_widget_not_found (st : ConnState) (remote : Remote) (ns : NodeState)
    (widget_id text direction : String) (target : Int) (dx dy duration_ms : Int)
    (hconn : connGuard st = false) (hparse : pyParseInt widget_id = some target)
    (hfetch : remote.fetchState = Except.ok ns)
    (hmiss : selectorGet ns.selector_map target = none)
    (hdir : direction = "up" ∨ direction = "down") :
    click_widget st remote widget_id =
      (widgetNotFoundMsg widget_id, [RemoteCall.fetchState]) ∧
    enter_text st remote widget_id text =
      (widgetNotFoundMsg widget_id, [RemoteCall.fetchState]) ∧
    scroll_widget_into_view st remote widget_id =
      (widgetNotFoundMsg widget_id, [RemoteCall.fetchState]) ∧
    scroll_widget_normal st remote widget_id direction =
      (widgetNotFoundMsg widget_id, [RemoteCall.fetchState]) ∧
    scroll_widget st remote widget_id direction dx dy duration_ms =
      (widgetNotFoundMsg widget_id, [RemoteCall.fetchState]) := by
  have hdirb : (direction == "up" || direction == "down") = true := by
    rcases hdir with h | h <;> simp [h]
  refine ⟨?_, ?_, ?_, ?_, ?_⟩
  · simp [click_widget, hconn, hparse, hfetch, hmiss]
  · simp [enter_text, hconn, hparse, hfetch, hmiss]
  · simp [scroll_widget_into_view, hconn, hparse, hfetch, hmiss]
  · simp [scroll_widget_normal, hconn, hparse, hfetch, hmiss, hdirb]
  · simp [scroll_widget, hconn, hparse, hfetch, hmiss, hdirb]

/-- Claim C6, witness: identifier 999999 against the one-node snapshot. -/
theorem missing_id_widget_not_found_witness :
    click_widget stConnT remoteT "999999" =
      (widgetNotFoundMsg "999999", [RemoteCall.fetchState]) ∧
    enter_text stConnT remoteT "999999" "hi" =
      (widgetNotFoundMsg "999999", [RemoteCall.fetchState]) :=
  ⟨(missing_id_widget_not_found stConnT remoteT nsT "999999" "hi" "down" 999999 0 100 300
      rfl (by decide) rfl rfl (Or.inr rfl)).1,
   (missing_id_widget_not_found stConnT remoteT nsT "999999" "hi" "down" 999999 0 100 300
      rfl (by decide) rfl rfl (Or.inr rfl)).2.1⟩

/-- Claim C8: for every resolved widget, the descriptive fields widget_type,
text and key are captured from the resolved Node before the action is
dispatched — the outcome messages are functions of the captured fields and of
the remote boolean alone — and the success and failure messages carry the
same descriptive naming (describeWidget for click and both scrolls, the same
captured fields for enter text and scroll-into-view) and differ in the
verdict wording. -/
theorem action_messages_symmetric (st : ConnState) (remote : Remote) (ns : NodeState)
    (node : Node) (widget_id text direction : String) (target : Int)
    (dx dy duration_ms : Int) (b1 b2 b3 b4 b5 : Bool)
    (hconn : connGuard st = false) (hparse : pyParseInt widget_id = some target)
    (hfetch : remote.fetchState = Except.ok ns)
    (hfound : selectorGet ns.selector_map target = some node)
    (hdir : direction = "up" ∨ direction = "down")
    (hb1 : remote.clickResult target = Except.ok b1)
    (hb2 : remote.enterTextResult target text = Except.ok b2)
    (hb3 : remote.scrollIntoViewResult target = Except.ok b3)
    (hb4 : remote.scrollResult target direction = Except.ok b4)
    (hb5 : remote.scrollExtResult target direction dx dy (duration_ms * 1000) 60 =
      Except.ok b5) :
    click_widget st remote widget_id =
      ((if b1 then "Successfully clicked on " ++ describeWidget node ++ "."
        else "Failed to click on " ++ describeWidget node ++
          ". The widget might not be interactive."),
       [RemoteCall.fetchState, RemoteCall.clickDispatch target]) ∧
    enter_text st remote widget_id text =
      ((if b2 then
          "Successfully entered text \x27" ++ text ++ "\x27 into " ++ node.widget_type ++
            " widget with previous text \x27" ++ pyOptDisplay (widgetTextOf node) ++
            "\x27 and key \x27" ++ pyOptDisplay (widgetKeyOf node) ++ "\x27."
        else "Failed to enter text into " ++ describeWidget node ++
          ". The widget might not support text input."),
       [RemoteCall.fetchState, RemoteCall.enterTextDispatch target text]) ∧
    scroll_widget_into_view st remote widget_id =
      ((if b3 then
          "Successfully scrolled " ++ node.widget_type ++ " widget into view with text \x27" ++
            pyOptDisplay (widgetTextOf node) ++ "\x27 and key \x27" ++
            pyOptDisplay (widgetKeyOf node) ++ "\x27."
        else
          "Failed to scroll " ++ node.widget_type ++ " widget into view with text \x27" ++
            pyOptDisplay (widgetTextOf node) ++ "\x27 and key \x27" ++
            pyOptDisplay (widgetKeyOf node) ++ "\x27. The widget might not be scrollable."),
       [RemoteCall.fetchState, RemoteCall.scrollIntoViewDispatch target]) ∧
    scroll_widget_normal st remote widget_id direction =
      ((if b4 then
          "Successfully scrolled " ++ direction ++ " " ++ describeWidget node ++ "."
        else "Failed to scroll " ++ direction ++ " " ++ describeWidget node ++
          ". The widget might not be scrollable."),
       [RemoteCall.fetchState, RemoteCall.scrollDispatch target direction]) ∧
    scroll_widget st remote widget_id direction dx dy duration_ms =
      ((if b5 then
          "Successfully performed extended scroll " ++ direction ++ " on " ++
            describeWidget node ++ "."
        else "Failed to perform extended scroll " ++ direction ++ " on " ++
          describeWidget node ++ ". The widget might not be scrollable."),
       [RemoteCall.fetchState,
        RemoteCall.scrollExtDispatch target direction dx dy (duration_ms * 1000) 60]) := by
  have hdirb : (direction == "up" || direction == "down") = true := by
    rcases hdir with h | h <;> simp [h]
  refine ⟨?_, ?_, ?_, ?_, ?_⟩
  · cases b1 <;>
      simp [click_widget, hconn, hparse, hfetch, hfound, hb1, describeWidget,
        String.append_assoc]
  · cases b2 <;>
      simp [enter_text, hconn, hparse, hfetch, hfound, hb2, describeWidget,
        String.append_assoc]
  · cases b3 <;>
      simp [scroll_widget_into_view, hconn, hparse, hfetch, hfound, hb3,
        String.append_assoc]
  · cases b4 <;>
      simp [scroll_widget_normal, hconn, hparse, hfetch, hfound, hb4, hdirb,
        describeWidget, String.append_assoc]
  · cases b5 <;>
      simp [scroll_widget, hconn, hparse, hfetch, hfound, hb5, hdirb,
        describeWidget, String.append_assoc]

/-- Claim C8, witness: the Button fixture clicked through the stub remote
produces the success message built on describeWidget. -/
theorem action_messages_symmetric_witness :
    click_widget stConnT remoteT "2" =
      ("Successfully clicked on " ++ describeWidget nodeButtonT ++ ".",
       [RemoteCall.fetchState, RemoteCall.clickDispatch 2]) :=
  (action_messages_symmetric stConnT remoteT nsT nodeButtonT "2" "hi" "down" 2 0 100 300
    true true true true true rfl (by decide) rfl rfl (Or.inr rfl)
    rfl rfl rfl rfl rfl).1

theorem formatBody_ok_shape (ns : NodeState) (r : String)
    (h : formatBody ns = Except.ok r) :
    ∃ body, r = "Flutter App UI Structure:\n\n" ++ body := by
  unfold formatBody at h
  cases hj : ns.jsonData with
  | pdict kvs =>
    simp only [hj] at h
    cases hf : dictFind kvs "element_tree" with
    | none => simp [hf] at h
    | some tree =>
      simp only [hf] at h
      cases hn : format_json_node tree 0 with
      | error e => simp [hn] at h
      | ok treeStr =>
        simp only [hn, Except.ok.injEq] at h
        refine ⟨"Element Tree:\n" ++ treeStr ++ "\nUI Summary:\n" ++ "- Total nodes: " ++
          toString ns.selector_map.length ++ "\n" ++ "- Interactive nodes: " ++
          toString (ns.selector_map.filter (fun p => p.2.is_interactive)).length ++ "\n", ?_⟩
        rw [← h]
        apply String.ext
        simp [String.data_append, List.append_assoc]
  | pstr s => simp [hj] at h
  | pint n => simp [hj] at h
  | pbool b => simp [hj] at h
  | pnone => simp [hj] at h
  | plist xs => simp [hj] at h

/-- Claim C3, counterexample: an empty snapshot (empty selector map, whether
the to_json dict lacks element_tree or maps it to None) renders the error
fallback, not a no-elements notice — the formatter contains no such notice
for any input, contradicting that an empty snapshot or forest renders an
explicit no-elements notice. -/
theorem empty_snapshot_renders_error_fallback :
    format_widget_tree nsEmptyA =
      "Error formatting widget tree: \x27element_tree\x27\nRaw data: NodeState()" ∧
    pyIn "no elements" (format_widget_tree nsEmptyA) = false ∧
    pyIn "no elements" (format_widget_tree nsEmptyB) = false := by
  have hB : format_widget_tree nsEmptyB =
      "Error formatting widget tree: \x27NoneType\x27 object is not subscriptable\nRaw data: NodeState()" := by
    simp [format_widget_tree, formatBody, nsEmptyB, dictFind, format_json_node]
  refine ⟨by decide, by decide, ?_⟩
  rw [hB]
  decide

/-- Claim C3, amended: the tree formatter is total and never raises — an
input without to_json support renders the serialisation fallback notice plus
the raw string form; with to_json support, every internal failure is caught
and rendered as an error notice plus the raw string form, and otherwise the
output is the normal header-led rendering.  No no-elements notice exists: an
empty snapshot renders through the same paths. -/
theorem format_widget_tree_shape (ns : NodeState) :
    (ns.hasToJson = false →
      format_widget_tree ns =
        "Node state doesn\x27t support to_json serialization. Raw data: " ++ ns.raw) ∧
    (ns.hasToJson = true →
      (∃ e, format_widget_tree ns =
          "Error formatting widget tree: " ++ e ++ "\nRaw data: " ++ ns.raw) ∨
      (∃ body, format_widget_tree ns = "Flutter App UI Structure:\n\n" ++ body)) := by
  constructor
  · intro h
    simp [format_widget_tree, h]
  · intro h
    cases hb : formatBody ns with
    | error e =>
      refine Or.inl ⟨e, ?_⟩
      simp only [format_widget_tree, h, if_true, hb]
    | ok r =>
      obtain ⟨body, hbody⟩ := formatBody_ok_shape ns r hb
      refine Or.inr ⟨body, ?_⟩
      simp only [format_widget_tree, h, if_true, hb]
      exact hbody

/-- Claim C3 amended, witness: the fixture without to_json support renders
the serialisation fallback notice. -/
theorem format_widget_tree_shape_witness :
    format_widget_tree nsNoJsonT =
      "Node state doesn\x27t support to_json serialization. Raw data: RAW" :=
  (format_widget_tree_shape nsNoJsonT).1 rfl

/-- Claim C9: the rendering returned by get_app_state is at most 1000000
characters; when the untruncated rendering is longer, the result is exactly
1000000 characters and a prefix of it; otherwise the rendering is returned
unchanged. -/
theorem get_app_state_bounded (st : ConnState) (remote : Remote) (ns : NodeState)
    (hconn : connGuard st = false) (hfetch : remote.fetchState = Except.ok ns) :
    ((get_app_state st remote).1).length ≤ 1000000 ∧
    (1000000 < (format_widget_tree ns).length →
      ((get_app_state st remote).1).length = 1000000 ∧
      ((get_app_state st remote).1).data <+: (format_widget_tree ns).data) ∧
    ((format_widget_tree ns).length ≤ 1000000 →
      (get_app_state st remote).1 = format_widget_tree ns) := by
  have hout : (get_app_state st remote).1 =
      (if (format_widget_tree ns).length > 1000000
       then pyStrTake (format_widget_tree ns) 1000000
       else format_widget_tree ns) := by
    simp [get_app_state, hconn, hfetch]
  have hdlen : (format_widget_tree ns).length = (format_widget_tree ns).data.length := by
    cases hs : format_widget_tree ns
    simp
  by_cases hlen : (format_widget_tree ns).length > 1000000
  · rw [hout, if_pos hlen]
    have htake : (pyStrTake (format_widget_tree ns) 1000000).length =
        min 1000000 (format_widget_tree ns).data.length := by
      simp [pyStrTake, List.length_take]
    have hmin : min 1000000 (format_widget_tree ns).data.length = 1000000 := by
      omega
    refine ⟨by omega, fun _ => ⟨by omega, ?_⟩, fun hcon => by omega⟩
    show ((format_widget_tree ns).data.take 1000000) <+: (format_widget_tree ns).data
    exact List.take_prefix 1000000 (format_widget_tree ns).data
  · rw [hout, if_neg hlen]
    refine ⟨by omega, fun hcon => by omega, fun _ => rfl⟩

/-- Claim C9, witness: the fixture snapshot renders well below the bound and
is returned unchanged in length. -/
theorem get_app_state_bounded_witness :
    ((get_app_state stConnT remoteT).1).length ≤ 1000000 :=
  (get_app_state_bounded stConnT remoteT nsT rfl rfl).1
